import Mathlib

/-!
Verification development for the command-execution core of the repository:
the Event Bus (src/infra/eventBus.ts), the Command Registry
(src/core/ToolRegistry.ts), the command/type model (src/core/ToolCommand.ts)
and the Command Dispatcher (src/core/CommandDispatcher.ts).

The TypeScript code is shallowly embedded: JavaScript values are the
inductive `JSValue`, `Map`s become association lists with JS `Map.set` /
`Map.delete` semantics, async handler execution is modelled by the settled
outcome of the race between the handler promise and the timeout timer
(`RaceOutcome`), and every stateful method becomes a pure function from the
old state to the new state together with the list of events it published,
in publication order.  Wall-clock readings (`Date.now()`) are passed in as
explicit parameters; they never influence control flow in the embedded
methods.
-/

namespace MCP

/-- The single-quote character, used to reproduce the quoting that the
source error messages put around tool names. -/
def sq : String := (Char.ofNat 39).toString

/-- JavaScript runtime values, as far as the core manipulates them:
`null`, `undefined`, booleans, numbers (modelled as integers; the core
never does arithmetic on them), strings, arrays and plain objects
(field lists in insertion order). -/
inductive JSValue where
  | vNull
  | vUndefined
  | vBool (b : Bool)
  | vNum (n : Int)
  | vStr (s : String)
  | vArr (elems : List JSValue)
  | vObj (fields : List (String × JSValue))

/-- JavaScript truthiness of a `JSValue` (`NaN` does not arise because
numbers are modelled as integers). -/
def truthy : JSValue → Bool
  | .vNull => false
  | .vUndefined => false
  | .vBool b => b
  | .vNum n => n != 0
  | .vStr s => s != ""
  | .vArr _ => true
  | .vObj _ => true

/-- Association-list lookup, mirroring `Map.get` (first, and in reachable
states only, binding for the key). -/
def mlookup {α : Type} : List (String × α) → String → Option α
  | [], _ => none
  | (k2, v) :: rest, k => if k2 == k then some v else mlookup rest k

/-- Association-list update, mirroring `Map.set`: replace the binding in
place if the key is present, append otherwise (JS `Map` preserves
insertion order on update). -/
def mset {α : Type} : List (String × α) → String → α → List (String × α)
  | [], k, v => [(k, v)]
  | (k2, u) :: rest, k, v =>
      if k2 == k then (k2, v) :: rest else (k2, u) :: mset rest k v

/-- Association-list removal, mirroring `Map.delete`.  On lists with
distinct keys (the only reachable states) removing every binding for the
key coincides with removing the unique one. -/
def merase {α : Type} (l : List (String × α)) (k : String) : List (String × α) :=
  l.filter (fun p => p.1 != k)

mutual

/-- `JSON.stringify` as the dispatcher uses it on handler results.  The
exact whitespace of `JSON.stringify(result, null, 2)` is abstracted; no
verified property depends on the rendered text of a structured value. -/
def jsonStringify : JSValue → String
  | .vNull => "null"
  | .vUndefined => "undefined"
  | .vBool true => "true"
  | .vBool false => "false"
  | .vNum n => toString n
  | .vStr s => "\"" ++ s ++ "\""
  | .vArr elems => "[" ++ jsonStringifyElems elems ++ "]"
  | .vObj fields => "\x7b" ++ jsonStringifyFields fields ++ "\x7d"

/-- Comma-joined rendering of array elements. -/
def jsonStringifyElems : List JSValue → String
  | [] => ""
  | [v] => jsonStringify v
  | v :: rest => jsonStringify v ++ "," ++ jsonStringifyElems rest

/-- Comma-joined rendering of object fields. -/
def jsonStringifyFields : List (String × JSValue) → String
  | [] => ""
  | [(k, v)] => "\"" ++ k ++ "\":" ++ jsonStringify v
  | (k, v) :: rest =>
      "\"" ++ k ++ "\":" ++ jsonStringify v ++ "," ++ jsonStringifyFields rest

end

/-- Error codes of the tool-error taxonomy (`ToolErrorCode` in
ToolCommand.ts). -/
inductive ToolErrorCode where
  | TOOL_NOT_FOUND
  | DUPLICATE_TOOL
  | VALIDATION_ERROR
  | EXECUTION_ERROR
  | TIMEOUT_ERROR
  | SANDBOX_ERROR
  | PERMISSION_ERROR
  | RESOURCE_ERROR
  | UNKNOWN_ERROR
deriving DecidableEq, Repr

/-- The string the source stores in each error code (used when a code is
rendered into a caller-facing response). -/
def codeStr : ToolErrorCode → String
  | .TOOL_NOT_FOUND => "TOOL_NOT_FOUND"
  | .DUPLICATE_TOOL => "DUPLICATE_TOOL"
  | .VALIDATION_ERROR => "VALIDATION_ERROR"
  | .EXECUTION_ERROR => "EXECUTION_ERROR"
  | .TIMEOUT_ERROR => "TIMEOUT_ERROR"
  | .SANDBOX_ERROR => "SANDBOX_ERROR"
  | .PERMISSION_ERROR => "PERMISSION_ERROR"
  | .RESOURCE_ERROR => "RESOURCE_ERROR"
  | .UNKNOWN_ERROR => "UNKNOWN_ERROR"

/-- `ToolError` from ToolCommand.ts: message, stable code, optional tool
name.  The `cause` field is carried but never read by any embedded method,
so it is omitted. -/
structure ToolError where
  message : String
  code : ToolErrorCode
  toolName : Option String := none
deriving DecidableEq, Repr

/-- `ToolNotFoundError` constructor. -/
def mkToolNotFoundError (toolName : String) : ToolError :=
  { message := "Tool " ++ sq ++ toolName ++ sq ++ " not found"
    code := .TOOL_NOT_FOUND, toolName := some toolName }

/-- `DuplicateToolError` constructor. -/
def mkDuplicateToolError (toolName : String) : ToolError :=
  { message := "Tool " ++ sq ++ toolName ++ sq ++ " is already registered"
    code := .DUPLICATE_TOOL, toolName := some toolName }

/-- `ToolValidationError` constructor. -/
def mkToolValidationError (toolName : String) (validationMessage : String) : ToolError :=
  { message := "Validation failed for tool " ++ sq ++ toolName ++ sq ++ ": " ++ validationMessage
    code := .VALIDATION_ERROR, toolName := some toolName }

/-- `ToolExecutionError` constructor. -/
def mkToolExecutionError (toolName : String) (executionMessage : String) : ToolError :=
  { message := "Execution failed for tool " ++ sq ++ toolName ++ sq ++ ": " ++ executionMessage
    code := .EXECUTION_ERROR, toolName := some toolName }

/-- `ToolTimeoutError` constructor; the second argument is the budget the
error reports. -/
def mkToolTimeoutError (toolName : String) (timeout : Nat) : ToolError :=
  { message := "Tool " ++ sq ++ toolName ++ sq ++ " execution timed out after "
      ++ toString timeout ++ "ms"
    code := .TIMEOUT_ERROR, toolName := some toolName }

/-- The `ToolError` thrown by `dispatch` when the concurrency ceiling is
reached. -/
def mkResourceError (maxConcurrent : Nat) (toolName : String) : ToolError :=
  { message := "Maximum concurrent executions (" ++ toString maxConcurrent ++ ") reached"
    code := .RESOURCE_ERROR, toolName := some toolName }

/-- The `ToolError` with which `ToolRegistry.register` rejects when the
`onLoad` hook fails with message `msg`. -/
def mkRegisterFailedError (toolName : String) (msg : String) : ToolError :=
  { message := "Failed to register tool " ++ sq ++ toolName ++ sq ++ ": " ++ msg
    code := .EXECUTION_ERROR, toolName := some toolName }

/-- `ToolLifecycle` states from ToolCommand.ts. -/
inductive ToolLifecycle where
  | loading
  | ready
  | error
  | unloading
  | disposed
deriving DecidableEq, Repr

/-- Events published on the event bus by the registry and the dispatcher,
with the payload fields the specification talks about.  `toolError`
carries the error message of the `Error` object in the `tool:error`
payload. -/
inductive Event where
  | lifecycle (name : String) (state : ToolLifecycle)
  | registered (name : String) (version : Option String) (source : String)
  | unregistered (name : String) (reason : Option String)
  | executeStart (name : String) (requestId : String) (args : JSValue)
  | executeEnd (name : String) (requestId : String) (success : Bool) (executionTime : Nat)
  | toolError (name : String) (errMessage : String) (requestId : Option String)
  | health (name : String) (healthy : Bool)

/-- One field-level schema violation, as Zod reports it: a path into the
arguments and a message. -/
structure ZodIssue where
  path : List String
  message : String

/-- The joined field-path/message rendering from
`CommandDispatcher.executeWithTimeout`:
`error.errors.map(e => path.join(".") + ": " + message).join(", ")`. -/
def joinIssues (issues : List ZodIssue) : String :=
  String.intercalate ", "
    (issues.map (fun i => String.intercalate "." i.path ++ ": " ++ i.message))

/-- `ToolHealthStatus` (metrics omitted; no embedded method reads them). -/
structure HealthStatus where
  healthy : Bool
  message : Option String := none
  lastChecked : Nat
deriving DecidableEq, Repr

/-- The `constraints` block of tool metadata. -/
structure Constraints where
  maxExecutionTime : Option Nat := none
  maxMemory : Option Nat := none
  requiresSandbox : Option Bool := none

/-- Tool metadata (`ToolMetadata`); only the fields read by an embedded
method plus the spec-visible ones are carried. -/
structure ToolMetadata where
  category : Option String := none
  author : Option String := none
  tags : Option (List String) := none
  constraints : Option Constraints := none

/-- A tool command (`ToolCommand`).  The Zod schema is embedded as the
validation function it denotes: either the parsed arguments or the list
of field-level issues.  The async hooks `onLoad` / `onUnload` are embedded
by their settled outcome: `none` = hook absent, `some (Except.ok ())` =
hook present and resolves, `some (Except.error msg)` = hook present and
rejects with an error whose message is `msg`.  The handler `execute` is
opaque to the core; its behaviour in a given dispatch is supplied to
`dispatch` as a `RaceOutcome`. -/
structure ToolCommand where
  name : String
  description : String
  schema : JSValue → Except (List ZodIssue) JSValue
  version : Option String := none
  metadata : Option ToolMetadata := none
  onLoad : Option (Except String Unit) := none
  onUnload : Option (Except String Unit) := none

/-- `ToolRegistration`: the registry record for an installed tool. -/
structure Registration where
  tool : ToolCommand
  registeredAt : Nat
  source : String
  enabled : Bool

/-- The mutable state of a `ToolRegistry`: the tool table and the health
cache, both JS `Map`s keyed by tool name. -/
structure RegistryState where
  tools : List (String × Registration)
  healthCache : List (String × HealthStatus)

/-- The empty registry. -/
def emptyRegistry : RegistryState := { tools := [], healthCache := [] }

namespace ToolRegistry

/-- `ToolRegistry.get`: the tool, only if its registration is enabled. -/
def get (st : RegistryState) (name : String) : Option ToolCommand :=
  match mlookup st.tools name with
  | some registration => if registration.enabled then some registration.tool else none
  | none => none

/-- `ToolRegistry.getRegistration`. -/
def getRegistration (st : RegistryState) (name : String) : Option Registration :=
  mlookup st.tools name

/-- `ToolRegistry.has`: presence in the table, enabled or not. -/
def has (st : RegistryState) (name : String) : Bool :=
  (mlookup st.tools name).isSome

/-- `ToolRegistry.list`: enabled tools only. -/
def list (st : RegistryState) : List ToolCommand :=
  ((st.tools.map (fun p => p.2)).filter (fun reg => reg.enabled)).map (fun reg => reg.tool)

/-- `ToolRegistry.listRegistrations`: every registration, disabled ones
included. -/
def listRegistrations (st : RegistryState) : List Registration :=
  st.tools.map (fun p => p.2)

/-- `ToolRegistry.getToolNames`. -/
def getToolNames (st : RegistryState) : List String :=
  st.tools.map (fun p => p.1)

/-- `ToolRegistry.register`, embedded as
old state → (returned promise outcome, new state, events published in
order).  `now` is the `Date.now()` reading stored in the registration. -/
def register (st : RegistryState) (tool : ToolCommand) (source : String) (now : Nat) :
    Except ToolError Unit × RegistryState × List Event :=
  if (mlookup st.tools tool.name).isSome then
    (.error (mkDuplicateToolError tool.name), st, [])
  else
    let registration : Registration :=
      { tool := tool, registeredAt := now, source := source, enabled := true }
    match tool.onLoad with
    | some (.error msg) =>
        (.error (mkRegisterFailedError tool.name msg), st,
         [Event.lifecycle tool.name .loading,
          Event.lifecycle tool.name .error,
          Event.toolError tool.name msg none])
    | _ =>
        (.ok (), { st with tools := mset st.tools tool.name registration },
         [Event.lifecycle tool.name .loading,
          Event.lifecycle tool.name .ready,
          Event.registered tool.name tool.version source])

/-- `ToolRegistry.unregister`, embedded as
old state → (returned boolean, new state, events published in order). -/
def unregister (st : RegistryState) (name : String) (reason : Option String) :
    Bool × RegistryState × List Event :=
  match mlookup st.tools name with
  | none => (false, st, [])
  | some registration =>
    match registration.tool.onUnload with
    | some (.error msg) =>
        (true,
         { tools := merase st.tools name, healthCache := merase st.healthCache name },
         [Event.lifecycle name .unloading,
          Event.toolError name msg none])
    | _ =>
        (true,
         { tools := merase st.tools name, healthCache := merase st.healthCache name },
         [Event.lifecycle name .unloading,
          Event.lifecycle name .disposed,
          Event.unregistered name reason])

/-- `ToolRegistry.setEnabled`, embedded as
old state → (returned boolean, new state, events published). -/
def setEnabled (st : RegistryState) (name : String) (enabled : Bool) :
    Bool × RegistryState × List Event :=
  match mlookup st.tools name with
  | none => (false, st, [])
  | some _ =>
      (true,
       { st with tools :=
           st.tools.map (fun p =>
             if p.1 = name then (p.1, { p.2 with enabled := enabled }) else p) },
       [Event.lifecycle name (if enabled then .ready else .disposed)])

end ToolRegistry

/-- Resolved dispatcher configuration (`Required<DispatcherConfig>`). -/
structure DispatcherConfig where
  defaultTimeout : Nat
  enableTracing : Bool
  maxConcurrentExecutions : Nat

/-- JavaScript `a || d` on an optional number: `0` and absence both fall
back to the default. -/
def jsOr (o : Option Nat) (d : Nat) : Nat :=
  match o with
  | some n => if n == 0 then d else n
  | none => d

/-- The `CommandDispatcher` constructor defaulting:
`defaultTimeout || 30000`, `enableTracing ?? true`,
`maxConcurrentExecutions || 10`. -/
def mkDispatcherConfig (defaultTimeout : Option Nat) (enableTracing : Option Bool)
    (maxConcurrentExecutions : Option Nat) : DispatcherConfig :=
  { defaultTimeout := jsOr defaultTimeout 30000
    enableTracing := enableTracing.getD true
    maxConcurrentExecutions := jsOr maxConcurrentExecutions 10 }

/-- An error value reaching the dispatcher from handler code: either an
already-normalized `ToolError` or a plain JS error (carried by its
message; `String(error)` of a non-Error thrown value is folded into the
same constructor). -/
inductive JSError where
  | toolErr (e : ToolError)
  | jsErr (message : String)

/-- `CommandDispatcher.normalizeError`. -/
def normalizeError (e : JSError) (toolName : String) : ToolError :=
  match e with
  | .toolErr t => t
  | .jsErr msg => mkToolExecutionError toolName msg

/-- The settled outcome of racing the handler promise against the timeout
timer inside one dispatch: the handler resolves first (with a value),
the handler rejects first (with an error), or the timer fires first. -/
inductive RaceOutcome where
  | resolves (v : JSValue)
  | rejects (e : JSError)
  | timesOut

/-- `CommandDispatcher.withTimeout`: `Promise.race` of the handler promise
and a timer that rejects with a `ToolTimeoutError` carrying `timeoutMs`. -/
def withTimeout (behavior : RaceOutcome) (timeoutMs : Nat) (toolName : String) :
    Except JSError JSValue :=
  match behavior with
  | .resolves v => .ok v
  | .rejects e => .error e
  | .timesOut => .error (.toolErr (mkToolTimeoutError toolName timeoutMs))

/-- `tool.metadata?.constraints?.maxExecutionTime`. -/
def getMaxExecutionTime (tool : ToolCommand) : Option Nat :=
  (tool.metadata.bind (fun m => m.constraints)).bind (fun c => c.maxExecutionTime)

/-- The effective timeout of one execution
(`tool.metadata?.constraints?.maxExecutionTime || this.config.defaultTimeout`). -/
def effectiveTimeout (cfg : DispatcherConfig) (tool : ToolCommand) : Nat :=
  jsOr (getMaxExecutionTime tool) cfg.defaultTimeout

/-- `ToolExecutionResult` (the `metadata` sub-object is flattened into the
`toolName` / `requestId` fields; `version` is omitted, never read). -/
structure ToolExecutionResult where
  success : Bool
  result : Option JSValue := none
  error : Option ToolError := none
  executionTime : Nat
  toolName : String
  requestId : String

/-- `CommandDispatcher.executeWithTimeout`, embedded as a pure function of
the settled race outcome.  The second component records whether
`tool.execute` was started (it is started exactly when schema validation
succeeds).  `elapsed` is the `Date.now() - startTime` reading. -/
def executeWithTimeout (cfg : DispatcherConfig) (tool : ToolCommand) (args : JSValue)
    (requestId : String) (behavior : RaceOutcome) (elapsed : Nat) :
    ToolExecutionResult × Bool :=
  match tool.schema args with
  | .error issues =>
      ({ success := false
         error := some (normalizeError
           (.toolErr (mkToolValidationError tool.name
             ("Invalid arguments: " ++ joinIssues issues))) tool.name)
         executionTime := elapsed, toolName := tool.name, requestId := requestId },
       false)
  | .ok _validatedArgs =>
      match withTimeout behavior (effectiveTimeout cfg tool) tool.name with
      | .ok v =>
          ({ success := true, result := some v
             executionTime := elapsed, toolName := tool.name, requestId := requestId },
           true)
      | .error e =>
          ({ success := false, error := some (normalizeError e tool.name)
             executionTime := elapsed, toolName := tool.name, requestId := requestId },
           true)

/-- `CommandDispatcher.isMCPResponse`: a non-null object with a `content`
field holding an array.  (A JS array is an object too, but has no
`content` property, so only `vObj` can satisfy the check.) -/
def isMCPResponse : JSValue → Bool
  | .vObj fields =>
      match mlookup fields "content" with
      | some (.vArr _) => true
      | _ => false
  | _ => false

/-- The text rendering `formatMCPResponse` applies when wrapping:
`typeof result === "string" ? result : JSON.stringify(result, null, 2)`. -/
def textOf (result : JSValue) : String :=
  match result with
  | .vStr s => s
  | v => jsonStringify v

/-- `CommandDispatcher.formatMCPResponse`: pass an MCP-shaped result
through unchanged, otherwise wrap it as one text content block (strings
as-is, everything else through `JSON.stringify`). -/
def formatMCPResponse (result : JSValue) : JSValue :=
  if isMCPResponse result then result
  else
    JSValue.vObj [("content", .vArr [.vObj
      [("type", .vStr "text"),
       ("text", .vStr (textOf result))]])]

/-- `CommandDispatcher.formatErrorResponse`. -/
def formatErrorResponse (cfg : DispatcherConfig) (e : ToolError) : JSValue :=
  let errorMessage :=
    if cfg.enableTracing then
      e.message ++ "\n\nError Code: " ++ codeStr e.code ++ "\nTool: "
        ++ e.toolName.getD "unknown"
    else e.message
  JSValue.vObj [("content", .vArr [.vObj
    [("type", .vStr "text"),
     ("text", .vStr ("Error: " ++ errorMessage))]])]

/-- `CommandDispatcher.generateRequestId`:
`"req_" + Date.now() + "_" + (++executionCounter)`. -/
def generateRequestId (now : Nat) (executionCounter : Nat) : String :=
  "req_" ++ toString now ++ "_" ++ toString (executionCounter + 1)

/-- The outcome of one `dispatch` call: the caller-facing MCP response,
the events published in order, the final `activeExecutions` map
(requestId → toolName; the stored `startTime` is monitoring-only and
dropped), and whether `tool.execute` was started. -/
structure DispatchOutcome where
  response : JSValue
  events : List Event
  active : List (String × String)
  handlerInvoked : Bool

/-- The outcome of the admission phase of `dispatch` (everything before
the `await` of `executeWithTimeout`): either the tool was resolved and the
in-flight slot reserved, or the call was rejected before the handler was
reached. -/
inductive StartOutcome where
  | admitted (tool : ToolCommand)
  | rejected (e : ToolError)

/-- The admission phase of `CommandDispatcher.dispatch`: the concurrency
check, the registry lookup, the in-flight reservation and the
`tool:execute:start` emission, in source order. -/
def dispatchStart (cfg : DispatcherConfig) (reg : RegistryState)
    (active : List (String × String)) (requestId toolName : String) (args : JSValue) :
    StartOutcome × List (String × String) × List Event :=
  if active.length ≥ cfg.maxConcurrentExecutions then
    (.rejected (mkResourceError cfg.maxConcurrentExecutions toolName), active, [])
  else
    match ToolRegistry.get reg toolName with
    | none => (.rejected (mkToolNotFoundError toolName), active, [])
    | some tool =>
        (.admitted tool, mset active requestId toolName,
         [Event.executeStart toolName requestId args])

/-- The `catch` block of `CommandDispatcher.dispatch`: clear the in-flight
slot, normalize the error, publish `tool:error` then `tool:execute:end`
with `success := false`, and return the formatted error response. -/
def dispatchCatch (cfg : DispatcherConfig) (active : List (String × String))
    (requestId toolName : String) (elapsed : Nat) (evSoFar : List Event)
    (invoked : Bool) (err : JSError) : DispatchOutcome :=
  let toolError := normalizeError err toolName
  { response := formatErrorResponse cfg toolError
    events := evSoFar ++
      [Event.toolError toolName toolError.message (some requestId),
       Event.executeEnd toolName requestId false elapsed]
    active := merase active requestId
    handlerInvoked := invoked }

/-- `CommandDispatcher.dispatch`, embedded over the settled race outcome
`behavior` of the handler invocation.  Its `try` block is the admission
phase (`dispatchStart`), then the awaited `executeWithTimeout`, the slot
release, the `tool:execute:end` emission and the success/throw decision
`result.success && result.result`; every throw lands in `dispatchCatch`. -/
def dispatch (cfg : DispatcherConfig) (reg : RegistryState)
    (active : List (String × String)) (requestId toolName : String) (args : JSValue)
    (behavior : RaceOutcome) (elapsed : Nat) : DispatchOutcome :=
  match dispatchStart cfg reg active requestId toolName args with
  | (.rejected e, a1, ev1) =>
      dispatchCatch cfg a1 requestId toolName elapsed ev1 false (.toolErr e)
  | (.admitted tool, a1, ev1) =>
      let step := executeWithTimeout cfg tool args requestId behavior elapsed
      let result := step.1
      let a2 := merase a1 requestId
      let ev2 := ev1 ++ [Event.executeEnd toolName requestId result.success elapsed]
      if result.success && ((result.result.map truthy).getD false) then
        { response := formatMCPResponse (result.result.getD .vUndefined)
          events := ev2, active := a2, handlerInvoked := step.2 }
      else
        dispatchCatch cfg a2 requestId toolName elapsed ev2 step.2
          (.toolErr (result.error.getD
            (mkToolExecutionError toolName "Unknown execution error")))

/-- Run the admission phases of a batch of simultaneous dispatches, in
the order their `dispatch` calls reach the concurrency check; none of the
handlers has settled yet, so no slot is released in between.  Returns the
admission outcomes and the final in-flight map. -/
def startMany (cfg : DispatcherConfig) (reg : RegistryState) (toolName : String)
    (args : JSValue) : List String → List (String × String) →
    List StartOutcome × List (String × String)
  | [], a => ([], a)
  | rid :: rids, a =>
      let step := dispatchStart cfg reg a rid toolName args
      let rest := startMany cfg reg toolName args rids step.2.1
      (step.1 :: rest.1, rest.2)

/-- Whether an admission outcome is a rejection with the concurrency-limit
error. -/
def isResourceRejected : StartOutcome → Bool
  | .rejected e => e.code == .RESOURCE_ERROR
  | .admitted _ => false

/-- One subscription record of the event bus (`ListenerSource` plus the
identity the returned unsubscribe closure captures).  User handlers are
named by numeric identifiers; `isOnce` marks the self-unsubscribing
wrapper that `once` registers around its handler (`createdAt` is a
leak-detection aid and is dropped). -/
structure Listener where
  id : Nat
  target : Nat
  isOnce : Bool
deriving DecidableEq, Repr

/-- The state of an `EventBus` instance: the subscription list (each entry
tagged with its event name; per-event iteration order is insertion order,
as for a JS `Map` of `Set`s), the next subscription identity, and the log
of user-handler invocations in order (`calls.count h` is how many times
handler `h` has run). -/
structure EventBusState where
  subs : List (String × Listener)
  nextId : Nat
  calls : List Nat

/-- A bus with no subscriptions. -/
def emptyBus : EventBusState := { subs := [], nextId := 0, calls := [] }

/-- The environment a bus run is driven by: `throws h k` says whether user
handler `h` throws on its `k`-th invocation (0-based). -/
structure HandlerEnv where
  throws : Nat → Nat → Bool

namespace EventBus

/-- `EventBus.on` (`on` is reserved in Lean, so the spec name `subscribe`
is used): append a plain subscription; the returned identity is what the
unsubscribe closure removes. -/
def subscribe (st : EventBusState) (event : String) (target : Nat) : Nat × EventBusState :=
  (st.nextId,
   { st with
       subs := st.subs ++ [(event, { id := st.nextId, target := target, isOnce := false })]
       nextId := st.nextId + 1 })

/-- `EventBus.once`: `on` applied to the wrapper
`(data) => { handler(data); unsubscribe(); }`. -/
def once (st : EventBusState) (event : String) (target : Nat) : Nat × EventBusState :=
  (st.nextId,
   { st with
       subs := st.subs ++ [(event, { id := st.nextId, target := target, isOnce := true })]
       nextId := st.nextId + 1 })

/-- The unsubscribe closure returned by `on` / `once`: remove exactly the
captured subscription. -/
def unsubscribe (st : EventBusState) (subId : Nat) : EventBusState :=
  { st with subs := st.subs.filter (fun p => p.2.id != subId) }

/-- Invoke one subscribed handler from inside `emit`.  A plain handler
just runs (a throw is caught and logged by `emit`).  A `once` wrapper runs
the handler and then unsubscribes itself — but when the handler throws,
the throw leaves the wrapper before `unsubscribe()` runs, `emit` catches
it, and the wrapper stays subscribed. -/
def runListener (env : HandlerEnv) (st : EventBusState) (l : Listener) : EventBusState :=
  let k := st.calls.count l.target
  let st1 := { st with calls := st.calls ++ [l.target] }
  if env.throws l.target k then st1
  else if l.isOnce then unsubscribe st1 l.id
  else st1

/-- The `handlers.forEach` loop of `emit` over the subscriptions that
existed when the emission began (the only removal a handler of this model
performs is the `once` wrapper removing itself, which never affects a
later entry of the snapshot). -/
def emitLoop (env : HandlerEnv) : List Listener → EventBusState → EventBusState
  | [], st => st
  | l :: rest, st => emitLoop env rest (runListener env st l)

/-- `EventBus.emit`: run every handler currently subscribed under the
event name, in insertion order, isolating faults. -/
def emit (env : HandlerEnv) (st : EventBusState) (event : String) : EventBusState :=
  emitLoop env ((st.subs.filter (fun p => p.1 == event)).map (fun p => p.2)) st

/-- A sequence of `emit` calls. -/
def emitMany (env : HandlerEnv) : List String → EventBusState → EventBusState
  | [], st => st
  | e :: es, st => emitMany env es (emit env st e)

end EventBus

/-- Number of subscriptions whose user handler is `h`. -/
def countTargets (subs : List (String × Listener)) (h : Nat) : Nat :=
  (subs.filter (fun p => p.2.target == h)).length

/-- Whether an event is a `tool:execute:start` for the given request id. -/
def isStartFor (rid : String) : Event → Bool
  | .executeStart _ r _ => r == rid
  | _ => false

/-- Whether an event is a `tool:execute:end` for the given request id. -/
def isEndFor (rid : String) : Event → Bool
  | .executeEnd _ r _ _ => r == rid
  | _ => false

/-- Whether an event is a `tool:execute:end` for the given request id with
the given success flag. -/
def isEndFlagFor (rid : String) (success : Bool) : Event → Bool
  | .executeEnd _ r s _ => r == rid && s == success
  | _ => false

/-- Whether an event is a `tool:error` event. -/
def isErrorEvent : Event → Bool
  | .toolError _ _ _ => true
  | _ => false

/-- Whether an event is a `tool:lifecycle` event for the given name in the
given state. -/
def isLifecycleFor (name : String) (state : ToolLifecycle) : Event → Bool
  | .lifecycle n s => n == name && s == state
  | _ => false

/-- Whether an event is a `tool:unregistered` event for the given name. -/
def isUnregisteredFor (name : String) : Event → Bool
  | .unregistered n _ => n == name
  | _ => false

/-- True when, in the list, no `tool:execute:start` for the request id
occurs after any `tool:execute:end` for it — together with "at most one
start" this says the start, when present, strictly precedes every end of
that request. -/
def noStartAfterEnd (rid : String) : List Event → Bool
  | [] => true
  | e :: rest =>
      if isEndFor rid e then
        rest.all (fun x => !(isStartFor rid x)) && noStartAfterEnd rid rest
      else noStartAfterEnd rid rest

/-- The text of the first content block of an MCP response, when the
response has the expected shape. -/
def responseText (resp : JSValue) : Option String :=
  match resp with
  | .vObj fields =>
      match mlookup fields "content" with
      | some (.vArr (.vObj blockFields :: _)) =>
          match mlookup blockFields "text" with
          | some (.vStr t) => some t
          | _ => none
      | _ => none
  | _ => none

/-- Whether a caller-facing response is an error rendering (its text
begins with the `"Error: "` marker `formatErrorResponse` prepends). -/
def responseIsError (resp : JSValue) : Bool :=
  match responseText resp with
  | some t => t.data.take 7 == "Error: ".data
  | none => false

/-! ### Concrete fixtures used by counterexamples and witnesses -/

/-- The schema of the spec scenario tool `echo`: an object with a
required string field `msg`. -/
def echoSchema : JSValue → Except (List ZodIssue) JSValue := fun v =>
  match v with
  | .vObj fields =>
      match mlookup fields "msg" with
      | some (.vStr s) => .ok (.vObj [("msg", .vStr s)])
      | some _ => .error [{ path := ["msg"], message := "Expected string" }]
      | none => .error [{ path := ["msg"], message := "Required" }]
  | _ => .error [{ path := [], message := "Expected object" }]

/-- The `echo` tool of the spec test scenario. -/
def echoTool : ToolCommand :=
  { name := "echo", description := "echoes msg", schema := echoSchema }

/-- A tool that declares `maxExecutionTime := 0` in its constraints. -/
def zeroTimeoutTool : ToolCommand :=
  { name := "zero", description := "declares a zero maxExecutionTime"
    schema := fun v => .ok v
    metadata := some { constraints := some { maxExecutionTime := some 0 } } }

/-- A tool whose `onUnload` hook rejects. -/
def badUnloadTool : ToolCommand :=
  { name := "bad", description := "onUnload rejects", schema := fun v => .ok v
    onUnload := some (.error "unload boom") }

/-- A tool whose `onLoad` hook rejects. -/
def badLoadTool : ToolCommand :=
  { name := "fragile", description := "onLoad rejects", schema := fun v => .ok v
    onLoad := some (.error "load boom") }

/-- A registry holding the enabled `echo` tool. -/
def echoRegistry : RegistryState :=
  { tools := [("echo", { tool := echoTool, registeredAt := 0, source := "test", enabled := true })]
    healthCache := [] }

/-- A registry holding the enabled `zero` tool. -/
def zeroRegistry : RegistryState :=
  { tools := [("zero", { tool := zeroTimeoutTool, registeredAt := 0, source := "test", enabled := true })]
    healthCache := [] }

/-- A registry holding the `bad` tool together with a cached health entry
for it. -/
def badUnloadRegistry : RegistryState :=
  { tools := [("bad", { tool := badUnloadTool, registeredAt := 0, source := "test", enabled := true })]
    healthCache := [("bad", { healthy := true, lastChecked := 0 })] }

/-- A dispatcher configuration with the constructor defaults. -/
def defaultConfig : DispatcherConfig := mkDispatcherConfig none none none

/-- The environment in which user handler `0` throws on its first
invocation and returns normally afterwards. -/
def throwOnFirstEnv : HandlerEnv := { throws := fun h k => h == 0 && k == 0 }

/-- The environment in which no user handler ever throws. -/
def calmEnv : HandlerEnv := { throws := fun _ _ => false }

/-! ### Association-list lemmas -/

theorem mlookup_mset_self {α : Type} (l : List (String × α)) (k : String) (v : α) :
    mlookup (mset l k v) k = some v := by
  induction l with
  | nil => simp [mset, mlookup]
  | cons p rest ih =>
      obtain ⟨k2, u⟩ := p
      by_cases h : k2 = k
      · simp [mset, mlookup, h]
      · simp [mset, mlookup, h, ih]

theorem mlookup_mset_ne {α : Type} (l : List (String × α)) (k k2 : String) (v : α)
    (h : k2 ≠ k) : mlookup (mset l k v) k2 = mlookup l k2 := by
  induction l with
  | nil => simp [mset, mlookup, Ne.symm h]
  | cons p rest ih =>
      obtain ⟨k3, u⟩ := p
      by_cases h3 : k3 = k
      · subst h3
        simp [mset, mlookup, Ne.symm h]
      · simp only [mset]
        rw [if_neg (by simpa using h3)]
        by_cases h32 : k3 = k2
        · simp [mlookup, h32]
        · simp [mlookup, h32, ih]

theorem length_mset_fresh {α : Type} (l : List (String × α)) (k : String) (v : α)
    (h : mlookup l k = none) : (mset l k v).length = l.length + 1 := by
  induction l with
  | nil => simp [mset]
  | cons p rest ih =>
      obtain ⟨k2, u⟩ := p
      by_cases h2 : k2 = k
      · simp [mlookup, h2] at h
      · simp only [mlookup] at h
        rw [if_neg (by simpa using h2)] at h
        simp only [mset]
        rw [if_neg (by simpa using h2)]
        simp [ih h]

theorem mlookup_merase_self {α : Type} (l : List (String × α)) (k : String) :
    mlookup (merase l k) k = none := by
  induction l with
  | nil => simp [merase, mlookup]
  | cons p rest ih =>
      obtain ⟨k2, u⟩ := p
      by_cases h : k2 = k
      · simpa [merase, h] using ih
      · simpa [merase, mlookup, h] using ih

theorem countP_key_zero {α : Type} (l : List (String × α)) (k : String)
    (h : mlookup l k = none) : l.countP (fun p => p.1 == k) = 0 := by
  induction l with
  | nil => simp
  | cons p rest ih =>
      obtain ⟨k2, u⟩ := p
      by_cases h2 : k2 = k
      · simp [mlookup, h2] at h
      · simp only [mlookup] at h
        rw [if_neg (by simpa using h2)] at h
        simp [List.countP_cons, h2, ih h]

theorem countP_mset_fresh {α : Type} (l : List (String × α)) (k : String) (v : α)
    (h : mlookup l k = none) : (mset l k v).countP (fun p => p.1 == k) = 1 := by
  induction l with
  | nil => simp [mset, List.countP_cons]
  | cons p rest ih =>
      obtain ⟨k2, u⟩ := p
      by_cases h2 : k2 = k
      · simp [mlookup, h2] at h
      · simp only [mlookup] at h
        rw [if_neg (by simpa using h2)] at h
        simp only [mset]
        rw [if_neg (by simpa using h2)]
        simp [List.countP_cons, h2, ih h]

theorem mlookup_some_mem_values {α : Type} (l : List (String × α)) (k : String) (v : α)
    (h : mlookup l k = some v) : v ∈ l.map (fun p => p.2) := by
  induction l with
  | nil => simp [mlookup] at h
  | cons p rest ih =>
      obtain ⟨k2, u⟩ := p
      by_cases h2 : k2 = k
      · simp only [mlookup] at h
        rw [if_pos (by simpa using h2)] at h
        injection h with h
        simp [h]
      · simp only [mlookup] at h
        rw [if_neg (by simpa using h2)] at h
        simp [ih h]

theorem mlookup_some_mem_keys {α : Type} (l : List (String × α)) (k : String) (v : α)
    (h : mlookup l k = some v) : k ∈ l.map (fun p => p.1) := by
  induction l with
  | nil => simp [mlookup] at h
  | cons p rest ih =>
      obtain ⟨k2, u⟩ := p
      by_cases h2 : k2 = k
      · simp [h2]
      · simp only [mlookup] at h
        rw [if_neg (by simpa using h2)] at h
        simp [ih h]

theorem mlookup_none_not_mem_keys {α : Type} (l : List (String × α)) (k : String)
    (h : mlookup l k = none) : k ∉ l.map (fun p => p.1) := by
  induction l with
  | nil => simp
  | cons p rest ih =>
      obtain ⟨k2, u⟩ := p
      by_cases h2 : k2 = k
      · simp [mlookup, h2] at h
      · simp only [mlookup] at h
        rw [if_neg (by simpa using h2)] at h
        simp only [List.map_cons, List.mem_cons]
        intro hmem
        rcases hmem with h1 | h1
        · exact h2 h1.symm
        · exact ih h h1

theorem mlookup_map_update {α : Type} (l : List (String × α)) (n : String) (f : α → α) :
    mlookup (l.map (fun p => if p.1 = n then (p.1, f p.2) else p)) n
      = (mlookup l n).map f := by
  induction l with
  | nil => simp [mlookup]
  | cons p rest ih =>
      obtain ⟨k2, u⟩ := p
      simp only [List.map_cons]
      by_cases h2 : k2 = n
      · subst h2
        rw [if_pos rfl]
        simp [mlookup]
      · rw [if_neg (by simpa using h2)]
        simp [mlookup, h2, ih]

theorem keys_map_update {α : Type} (l : List (String × α)) (n : String) (f : α → α) :
    (l.map (fun p => if p.1 = n then (p.1, f p.2) else p)).map (fun p => p.1)
      = l.map (fun p => p.1) := by
  induction l with
  | nil => simp
  | cons p rest ih =>
      obtain ⟨k2, u⟩ := p
      by_cases h2 : k2 = n
      · simp [h2, ih]
      · simp [h2, ih]

/-! ### Registry claims -/

/-- A fresh, loadable registration succeeds and inserts the registration
record (the two non-failing `onLoad` shapes of `ToolRegistry.register`). -/
theorem register_fresh_ok (st : RegistryState) (tool : ToolCommand) (src : String)
    (now : Nat) (hfresh : mlookup st.tools tool.name = none)
    (hload : ∀ msg, tool.onLoad ≠ some (Except.error msg)) :
    ToolRegistry.register st tool src now
      = (Except.ok (),
         { st with tools := mset st.tools tool.name ⟨tool, now, src, true⟩ },
         [Event.lifecycle tool.name .loading,
          Event.lifecycle tool.name .ready,
          Event.registered tool.name tool.version src]) := by
  rcases hL : tool.onLoad with _ | exc
  · simp [ToolRegistry.register, hfresh, hL]
  · rcases exc with msg | u
    · exact absurd hL (hload msg)
    · simp [ToolRegistry.register, hfresh, hL]

/-- Claim C7: command names are unique in a registry: registering a name,
then registering it again, makes the second call fail with the duplicate
error while leaving the first registration as the unique entry for that
name, mutating nothing and publishing no event for the duplicate
attempt. -/
theorem claim_C7_duplicate_register (st : RegistryState) (tool : ToolCommand)
    (src src2 : String) (now now2 : Nat)
    (hfresh : mlookup st.tools tool.name = none)
    (hload : ∀ msg, tool.onLoad ≠ some (Except.error msg)) :
    (ToolRegistry.register st tool src now).1 = Except.ok () ∧
    ToolRegistry.register (ToolRegistry.register st tool src now).2.1 tool src2 now2
      = (Except.error (mkDuplicateToolError tool.name),
         (ToolRegistry.register st tool src now).2.1, []) ∧
    (ToolRegistry.register st tool src now).2.1.tools.countP
      (fun p => p.1 == tool.name) = 1 := by
  rw [register_fresh_ok st tool src now hfresh hload]
  refine ⟨rfl, ?_, ?_⟩
  · simp [ToolRegistry.register, mlookup_mset_self]
  · simpa using countP_mset_fresh st.tools tool.name _ hfresh

/-- Witness for C7 on a concrete registry and tool. -/
theorem claim_C7_duplicate_register_witness :
    mlookup emptyRegistry.tools echoTool.name = none ∧
    ((ToolRegistry.register emptyRegistry echoTool "test" 0).1 = Except.ok () ∧
     ToolRegistry.register (ToolRegistry.register emptyRegistry echoTool "test" 0).2.1
         echoTool "test2" 1
       = (Except.error (mkDuplicateToolError echoTool.name),
          (ToolRegistry.register emptyRegistry echoTool "test" 0).2.1, []) ∧
     (ToolRegistry.register emptyRegistry echoTool "test" 0).2.1.tools.countP
       (fun p => p.1 == echoTool.name) = 1) :=
  ⟨rfl,
   claim_C7_duplicate_register emptyRegistry echoTool "test" "test2" 0 1 rfl
     (by intro msg h; simp [echoTool] at h)⟩

/-- Claim C8: when the `onLoad` hook rejects, `register` publishes
`lifecycle: error` and a generic `error` event (after the initial
`lifecycle: loading`), rejects with the normalized registration failure,
and leaves the registry state completely unchanged, so `get`, `has` and
the name list do not observe the command. -/
theorem claim_C8_onload_failure (st : RegistryState) (tool : ToolCommand)
    (src : String) (now : Nat) (msg : String)
    (hfresh : mlookup st.tools tool.name = none)
    (hload : tool.onLoad = some (Except.error msg)) :
    ToolRegistry.register st tool src now
      = (Except.error (mkRegisterFailedError tool.name msg), st,
         [Event.lifecycle tool.name .loading,
          Event.lifecycle tool.name .error,
          Event.toolError tool.name msg none]) ∧
    ToolRegistry.get st tool.name = none ∧
    ToolRegistry.has st tool.name = false ∧
    tool.name ∉ ToolRegistry.getToolNames st := by
  refine ⟨?_, ?_, ?_, ?_⟩
  · simp [ToolRegistry.register, hfresh, hload]
  · simp [ToolRegistry.get, hfresh]
  · simp [ToolRegistry.has, hfresh]
  · exact mlookup_none_not_mem_keys st.tools tool.name hfresh

/-- Witness for C8 on a concrete registry and failing tool. -/
theorem claim_C8_onload_failure_witness :
    mlookup emptyRegistry.tools badLoadTool.name = none ∧
    badLoadTool.onLoad = some (Except.error "load boom") ∧
    (ToolRegistry.register emptyRegistry badLoadTool "test" 0
      = (Except.error (mkRegisterFailedError badLoadTool.name "load boom"), emptyRegistry,
         [Event.lifecycle badLoadTool.name .loading,
          Event.lifecycle badLoadTool.name .error,
          Event.toolError badLoadTool.name "load boom" none]) ∧
     ToolRegistry.get emptyRegistry badLoadTool.name = none ∧
     ToolRegistry.has emptyRegistry badLoadTool.name = false ∧
     badLoadTool.name ∉ ToolRegistry.getToolNames emptyRegistry) :=
  ⟨rfl, rfl, claim_C8_onload_failure emptyRegistry badLoadTool "test" 0 "load boom" rfl rfl⟩

/-- Counterexample to claim C3: unregistering a command whose `onUnload`
hook rejects does remove it and returns `true`, but publishes only
`lifecycle: unloading` and the `error` event — neither the
`lifecycle: disposed` nor the `unregistered` event that the claim says
are published as in the clean-removal case. -/
theorem claim_C3_counterexample :
    ToolRegistry.unregister badUnloadRegistry "bad" none
      = (true, { tools := [], healthCache := [] },
         [Event.lifecycle "bad" .unloading,
          Event.toolError "bad" "unload boom" none]) ∧
    (ToolRegistry.unregister badUnloadRegistry "bad" none).2.2.countP
      (isLifecycleFor "bad" .disposed) = 0 ∧
    (ToolRegistry.unregister badUnloadRegistry "bad" none).2.2.countP
      (isUnregisteredFor "bad") = 0 :=
  ⟨rfl, rfl, rfl⟩

/-- Claim C3 as amended: when the registered command's `onUnload` hook
rejects, `unregister` still removes the registration and its health-cache
entry and returns `true`, and publishes `lifecycle: unloading` followed by
an `error` event — but, unlike the clean-removal case, it publishes
neither `lifecycle: disposed` nor `unregistered`. -/
theorem claim_C3_amended (st : RegistryState) (name : String) (reg : Registration)
    (msg : String) (reason : Option String)
    (hreg : mlookup st.tools name = some reg)
    (hunload : reg.tool.onUnload = some (Except.error msg)) :
    ToolRegistry.unregister st name reason
      = (true, { tools := merase st.tools name, healthCache := merase st.healthCache name },
         [Event.lifecycle name .unloading,
          Event.toolError name msg none]) ∧
    mlookup (merase st.tools name) name = none ∧
    mlookup (merase st.healthCache name) name = none := by
  refine ⟨?_, mlookup_merase_self _ _, mlookup_merase_self _ _⟩
  simp [ToolRegistry.unregister, hreg, hunload]

/-- Witness for the amended C3 on a concrete registry. -/
theorem claim_C3_amended_witness :
    mlookup badUnloadRegistry.tools "bad"
      = some { tool := badUnloadTool, registeredAt := 0, source := "test", enabled := true } ∧
    badUnloadTool.onUnload = some (Except.error "unload boom") ∧
    (ToolRegistry.unregister badUnloadRegistry "bad" none
      = (true, { tools := merase badUnloadRegistry.tools "bad",
                 healthCache := merase badUnloadRegistry.healthCache "bad" },
         [Event.lifecycle "bad" .unloading,
          Event.toolError "bad" "unload boom" none]) ∧
     mlookup (merase badUnloadRegistry.tools "bad") "bad" = none ∧
     mlookup (merase badUnloadRegistry.healthCache "bad") "bad" = none) :=
  ⟨rfl, rfl, claim_C3_amended badUnloadRegistry "bad" _ "unload boom" none rfl rfl⟩

/-- Claim C10: disabling a registered name succeeds and hides it from the
execution lookup `get` while `has`, `getToolNames` and
`listRegistrations` still observe it, the latter with `enabled = false`. -/
theorem claim_C10_disabled_visibility (st : RegistryState) (n : String)
    (reg : Registration) (hreg : mlookup st.tools n = some reg) :
    (ToolRegistry.setEnabled st n false).1 = true ∧
    ToolRegistry.get (ToolRegistry.setEnabled st n false).2.1 n = none ∧
    ToolRegistry.has (ToolRegistry.setEnabled st n false).2.1 n = true ∧
    n ∈ ToolRegistry.getToolNames (ToolRegistry.setEnabled st n false).2.1 ∧
    mlookup (ToolRegistry.setEnabled st n false).2.1.tools n
      = some { reg with enabled := false } ∧
    { reg with enabled := false }
      ∈ ToolRegistry.listRegistrations (ToolRegistry.setEnabled st n false).2.1 := by
  have hupd := mlookup_map_update st.tools n (fun r : Registration => { r with enabled := false })
  have hlook : mlookup (ToolRegistry.setEnabled st n false).2.1.tools n
      = some { reg with enabled := false } := by
    simp only [ToolRegistry.setEnabled, hreg]
    rw [hupd, hreg]
    rfl
  refine ⟨?_, ?_, ?_, ?_, hlook, ?_⟩
  · simp [ToolRegistry.setEnabled, hreg]
  · simp [ToolRegistry.get, hlook]
  · simp [ToolRegistry.has, hlook]
  · simp only [ToolRegistry.getToolNames, ToolRegistry.setEnabled, hreg]
    rw [keys_map_update st.tools n (fun r : Registration => { r with enabled := false })]
    exact mlookup_some_mem_keys st.tools n reg hreg
  · exact mlookup_some_mem_values _ n _ hlook

/-- Witness for C10 on a concrete registry. -/
theorem claim_C10_disabled_visibility_witness :
    mlookup echoRegistry.tools "echo"
      = some { tool := echoTool, registeredAt := 0, source := "test", enabled := true } ∧
    ((ToolRegistry.setEnabled echoRegistry "echo" false).1 = true ∧
     ToolRegistry.get (ToolRegistry.setEnabled echoRegistry "echo" false).2.1 "echo" = none ∧
     ToolRegistry.has (ToolRegistry.setEnabled echoRegistry "echo" false).2.1 "echo" = true ∧
     "echo" ∈ ToolRegistry.getToolNames (ToolRegistry.setEnabled echoRegistry "echo" false).2.1 ∧
     mlookup (ToolRegistry.setEnabled echoRegistry "echo" false).2.1.tools "echo"
       = some { tool := echoTool, registeredAt := 0, source := "test", enabled := false } ∧
     ({ tool := echoTool, registeredAt := 0, source := "test", enabled := false } : Registration)
       ∈ ToolRegistry.listRegistrations (ToolRegistry.setEnabled echoRegistry "echo" false).2.1) :=
  ⟨rfl, claim_C10_disabled_visibility echoRegistry "echo" _ rfl⟩

/-! ### Dispatcher claims -/

/-- Counterexample to claim C1: a dispatch whose arguments fail
validation publishes its `tool:execute:start`, but then publishes
`tool:execute:end` for the same request id twice (once on the normal
path, once again from the catch block), so "exactly one matching
`execute:end`" fails. -/
theorem claim_C1_counterexample :
    (dispatch defaultConfig echoRegistry [] "r1" "echo" (JSValue.vObj [])
        (RaceOutcome.resolves (JSValue.vStr "ok")) 3).events.countP (isStartFor "r1") = 1 ∧
    (dispatch defaultConfig echoRegistry [] "r1" "echo" (JSValue.vObj [])
        (RaceOutcome.resolves (JSValue.vStr "ok")) 3).events.countP (isEndFor "r1") = 2 :=
  ⟨rfl, rfl⟩

/-- Claim C1 as amended: every dispatch publishes at least one
`tool:execute:end` for its request id; at most one `tool:execute:start`
is published, and when it is (i.e. the command was resolved under the
concurrency ceiling) it strictly precedes every `execute:end` of that
request.  A successful dispatch publishes exactly one `execute:end`; a
dispatch that fails after the start publishes a second one from the catch
block, and a dispatch rejected before resolution (concurrency ceiling,
unknown command) publishes its `execute:end` without any
`execute:start`. -/
theorem claim_C1_amended (cfg : DispatcherConfig) (reg : RegistryState)
    (active : List (String × String)) (rid name : String) (args : JSValue)
    (behavior : RaceOutcome) (elapsed : Nat) :
    1 ≤ (dispatch cfg reg active rid name args behavior elapsed).events.countP (isEndFor rid) ∧
    (dispatch cfg reg active rid name args behavior elapsed).events.countP (isStartFor rid) ≤ 1 ∧
    noStartAfterEnd rid (dispatch cfg reg active rid name args behavior elapsed).events = true := by
  by_cases hcap : active.length ≥ cfg.maxConcurrentExecutions
  · simp [dispatch, dispatchStart, hcap, dispatchCatch, List.countP_cons, isEndFor,
      isStartFor, noStartAfterEnd]
  · cases hget : ToolRegistry.get reg name with
    | none =>
        simp [dispatch, dispatchStart, hcap, hget, dispatchCatch, List.countP_cons,
          isEndFor, isStartFor, noStartAfterEnd]
    | some tool =>
        simp only [dispatch, dispatchStart, hcap, if_false, ge_iff_le, hget]
        split
        · simp [List.countP_cons, isEndFor, isStartFor, noStartAfterEnd]
        · simp [dispatchCatch, List.countP_cons, isEndFor, isStartFor, noStartAfterEnd]

set_option maxRecDepth 8000 in
/-- Counterexample to claim C2: the handler of `echo` resolves (before
any timeout) with the empty string — a falsy value — and the dispatch
does not return it as a success: because `dispatch` tests
`result.success && result.result` with JS truthiness, it throws
`Unknown execution error` instead, renders an error response, and
publishes a `tool:error` event. -/
theorem claim_C2_counterexample :
    (dispatch defaultConfig echoRegistry [] "r1" "echo"
        (JSValue.vObj [("msg", JSValue.vStr "hi")])
        (RaceOutcome.resolves (JSValue.vStr "")) 3).response
      = formatErrorResponse defaultConfig
          (mkToolExecutionError "echo" "Unknown execution error") ∧
    responseIsError (dispatch defaultConfig echoRegistry [] "r1" "echo"
        (JSValue.vObj [("msg", JSValue.vStr "hi")])
        (RaceOutcome.resolves (JSValue.vStr "")) 3).response = true ∧
    (dispatch defaultConfig echoRegistry [] "r1" "echo"
        (JSValue.vObj [("msg", JSValue.vStr "hi")])
        (RaceOutcome.resolves (JSValue.vStr "")) 3).events.countP isErrorEvent = 1 ∧
    (dispatch defaultConfig echoRegistry [] "r1" "echo"
        (JSValue.vObj [("msg", JSValue.vStr "hi")])
        (RaceOutcome.resolves (JSValue.vStr "")) 3).handlerInvoked = true :=
  ⟨rfl, by rfl, by rfl, by rfl⟩

/-- Claim C2 as amended: when the handler resolves before the timeout
with a truthy value (not `null`, `undefined`, `false`, `0` or the empty
string), the dispatch succeeds and the caller receives exactly
`formatMCPResponse` of the handler result: passed through unchanged when
it already has the MCP shape (an object with a `content` array), and
otherwise wrapped as a single text content block (strings as-is,
structured results stringified).  A falsy resolved value is instead
reported as an `Unknown execution error`. -/
theorem claim_C2_amended (cfg : DispatcherConfig) (reg : RegistryState)
    (active : List (String × String)) (rid name : String) (args va v : JSValue)
    (tool : ToolCommand) (elapsed : Nat)
    (hget : ToolRegistry.get reg name = some tool)
    (hvalid : tool.schema args = Except.ok va)
    (hcap : active.length < cfg.maxConcurrentExecutions)
    (htruthy : truthy v = true) :
    (dispatch cfg reg active rid name args (RaceOutcome.resolves v) elapsed).response
      = formatMCPResponse v ∧
    (dispatch cfg reg active rid name args (RaceOutcome.resolves v) elapsed).events
      = [Event.executeStart name rid args, Event.executeEnd name rid true elapsed] ∧
    (dispatch cfg reg active rid name args (RaceOutcome.resolves v) elapsed).handlerInvoked
      = true ∧
    (isMCPResponse v = true →
      (dispatch cfg reg active rid name args (RaceOutcome.resolves v) elapsed).response = v) ∧
    (isMCPResponse v = false →
      (dispatch cfg reg active rid name args (RaceOutcome.resolves v) elapsed).response
        = JSValue.vObj [("content", .vArr [.vObj
            [("type", .vStr "text"), ("text", .vStr (textOf v))]])]) := by
  have hcap2 : ¬ (active.length ≥ cfg.maxConcurrentExecutions) := by omega
  have hmain : dispatch cfg reg active rid name args (RaceOutcome.resolves v) elapsed
      = { response := formatMCPResponse v
          events := [Event.executeStart name rid args, Event.executeEnd name rid true elapsed]
          active := merase (mset active rid name) rid
          handlerInvoked := true } := by
    simp [dispatch, dispatchStart, hcap2, hget, executeWithTimeout, hvalid, withTimeout, htruthy]
  refine ⟨by rw [hmain], by rw [hmain], by rw [hmain], ?_, ?_⟩
  · intro hmcp
    rw [hmain]
    simp [formatMCPResponse, hmcp]
  · intro hmcp
    rw [hmain]
    simp [formatMCPResponse, hmcp]

/-- Witness for the amended C2 on the `echo` scenario of the spec:
dispatching `\x7bmsg: "hi"\x7d` yields a success response containing
`"hi"`. -/
theorem claim_C2_amended_witness :
    ToolRegistry.get echoRegistry "echo" = some echoTool ∧
    echoTool.schema (JSValue.vObj [("msg", JSValue.vStr "hi")])
      = Except.ok (JSValue.vObj [("msg", JSValue.vStr "hi")]) ∧
    ([] : List (String × String)).length < defaultConfig.maxConcurrentExecutions ∧
    truthy (JSValue.vStr "hi") = true ∧
    (dispatch defaultConfig echoRegistry [] "r1" "echo"
        (JSValue.vObj [("msg", JSValue.vStr "hi")])
        (RaceOutcome.resolves (JSValue.vStr "hi")) 3).response
      = formatMCPResponse (JSValue.vStr "hi") :=
  ⟨rfl, rfl, by decide, rfl,
   (claim_C2_amended defaultConfig echoRegistry [] "r1" "echo"
      (JSValue.vObj [("msg", JSValue.vStr "hi")])
      (JSValue.vObj [("msg", JSValue.vStr "hi")])
      (JSValue.vStr "hi") echoTool 3 rfl rfl (by decide) rfl).1⟩

/-- Claim C4: a dispatch whose raw arguments fail schema validation never
starts the handler; the failure is reported as the `ToolValidationError`
joining the field path and message pairs, the in-flight slot is cleared,
and `tool:execute:end` is published with `success = false` (the full
event trace is `execute:start`, `execute:end` (failure), `tool:error`,
and the catch block's second `execute:end` (failure)). -/
theorem claim_C4_validation_failure (cfg : DispatcherConfig) (reg : RegistryState)
    (active : List (String × String)) (rid name : String) (args : JSValue)
    (tool : ToolCommand) (issues : List ZodIssue) (behavior : RaceOutcome) (elapsed : Nat)
    (hget : ToolRegistry.get reg name = some tool)
    (hcap : active.length < cfg.maxConcurrentExecutions)
    (hschema : tool.schema args = Except.error issues) :
    (dispatch cfg reg active rid name args behavior elapsed).handlerInvoked = false ∧
    (dispatch cfg reg active rid name args behavior elapsed).response
      = formatErrorResponse cfg
          (mkToolValidationError tool.name ("Invalid arguments: " ++ joinIssues issues)) ∧
    mlookup (dispatch cfg reg active rid name args behavior elapsed).active rid = none ∧
    (dispatch cfg reg active rid name args behavior elapsed).events
      = [Event.executeStart name rid args,
         Event.executeEnd name rid false elapsed,
         Event.toolError name
           (mkToolValidationError tool.name ("Invalid arguments: " ++ joinIssues issues)).message
           (some rid),
         Event.executeEnd name rid false elapsed] ∧
    0 < (dispatch cfg reg active rid name args behavior elapsed).events.countP
          (isEndFlagFor rid false) := by
  have hcap2 : ¬ (active.length ≥ cfg.maxConcurrentExecutions) := by omega
  have hmain : dispatch cfg reg active rid name args behavior elapsed
      = { response := formatErrorResponse cfg
            (mkToolValidationError tool.name ("Invalid arguments: " ++ joinIssues issues))
          events := [Event.executeStart name rid args,
            Event.executeEnd name rid false elapsed,
            Event.toolError name
              (mkToolValidationError tool.name ("Invalid arguments: " ++ joinIssues issues)).message
              (some rid),
            Event.executeEnd name rid false elapsed]
          active := merase (merase (mset active rid name) rid) rid
          handlerInvoked := false } := by
    simp [dispatch, dispatchStart, hcap2, hget, executeWithTimeout, hschema,
      dispatchCatch, normalizeError]
  refine ⟨by rw [hmain], by rw [hmain], ?_, by rw [hmain], ?_⟩
  · rw [hmain]
    exact mlookup_merase_self _ _
  · rw [hmain]
    simp [List.countP_cons, isEndFlagFor]

/-- Witness for C4 on the `echo` scenario of the spec: dispatching `\x7b\x7d`
fails validation mentioning field `msg`, without running the handler. -/
theorem claim_C4_validation_failure_witness :
    ToolRegistry.get echoRegistry "echo" = some echoTool ∧
    echoTool.schema (JSValue.vObj [])
      = Except.error [{ path := ["msg"], message := "Required" }] ∧
    ([] : List (String × String)).length < defaultConfig.maxConcurrentExecutions ∧
    (dispatch defaultConfig echoRegistry [] "r1" "echo" (JSValue.vObj [])
        (RaceOutcome.resolves (JSValue.vStr "hi")) 3).handlerInvoked = false ∧
    (dispatch defaultConfig echoRegistry [] "r1" "echo" (JSValue.vObj [])
        (RaceOutcome.resolves (JSValue.vStr "hi")) 3).response
      = formatErrorResponse defaultConfig
          (mkToolValidationError "echo" ("Invalid arguments: " ++ joinIssues
            [{ path := ["msg"], message := "Required" }])) :=
  ⟨rfl, rfl, by decide,
   (claim_C4_validation_failure defaultConfig echoRegistry [] "r1" "echo" (JSValue.vObj [])
      echoTool [{ path := ["msg"], message := "Required" }]
      (RaceOutcome.resolves (JSValue.vStr "hi")) 3 rfl (by decide) rfl).1,
   (claim_C4_validation_failure defaultConfig echoRegistry [] "r1" "echo" (JSValue.vObj [])
      echoTool [{ path := ["msg"], message := "Required" }]
      (RaceOutcome.resolves (JSValue.vStr "hi")) 3 rfl (by decide) rfl).2.1⟩

/-- Admission phase below the ceiling with a resolvable name: the tool is
admitted and the in-flight slot reserved. -/
theorem dispatchStart_admitted (cfg : DispatcherConfig) (reg : RegistryState)
    (a : List (String × String)) (rid name : String) (args : JSValue) (tool : ToolCommand)
    (hget : ToolRegistry.get reg name = some tool)
    (hcap : a.length < cfg.maxConcurrentExecutions) :
    dispatchStart cfg reg a rid name args
      = (.admitted tool, mset a rid name, [Event.executeStart name rid args]) := by
  have hcap2 : ¬ (a.length ≥ cfg.maxConcurrentExecutions) := by omega
  simp [dispatchStart, hcap2, hget]

/-- Admission phase at or above the ceiling: immediate rejection with the
resource error, before the registry is even consulted. -/
theorem dispatchStart_rejected (cfg : DispatcherConfig) (reg : RegistryState)
    (a : List (String × String)) (rid name : String) (args : JSValue)
    (hcap : cfg.maxConcurrentExecutions ≤ a.length) :
    dispatchStart cfg reg a rid name args
      = (.rejected (mkResourceError cfg.maxConcurrentExecutions name), a, []) := by
  simp [dispatchStart, hcap]

/-- Exact count of concurrency rejections among a batch of simultaneous
admission phases: with the target tool resolvable and the request ids
fresh and distinct, the number of `RESOURCE_ERROR` rejections is the
batch size minus the remaining capacity. -/
theorem startMany_resource_count (cfg : DispatcherConfig) (reg : RegistryState)
    (name : String) (args : JSValue) (tool : ToolCommand)
    (hget : ToolRegistry.get reg name = some tool) :
    ∀ (ids : List String) (a : List (String × String)), ids.Nodup →
      (∀ rid ∈ ids, mlookup a rid = none) →
      (startMany cfg reg name args ids a).1.countP isResourceRejected
        = ids.length - (cfg.maxConcurrentExecutions - a.length) := by
  intro ids
  induction ids with
  | nil => intro a _ _; simp [startMany]
  | cons rid rids ih =>
      intro a hnodup hfresh
      by_cases hcap : cfg.maxConcurrentExecutions ≤ a.length
      · have hstart := dispatchStart_rejected cfg reg a rid name args hcap
        have htail := ih a (List.Nodup.of_cons hnodup)
          (fun r hr => hfresh r (List.mem_cons_of_mem rid hr))
        simp only [startMany, hstart, List.countP_cons]
        rw [htail]
        simp only [isResourceRejected, mkResourceError]
        have hz : cfg.maxConcurrentExecutions - a.length = 0 := by omega
        rw [hz]
        simp
      · have hlt : a.length < cfg.maxConcurrentExecutions := by omega
        have hstart := dispatchStart_admitted cfg reg a rid name args tool hget hlt
        have hfreshHead : mlookup a rid = none := hfresh rid (List.mem_cons_self rid rids)
        have hlen : (mset a rid name).length = a.length + 1 :=
          length_mset_fresh a rid name hfreshHead
        have hfreshTail : ∀ r ∈ rids, mlookup (mset a rid name) r = none := by
          intro r hr
          have hne : r ≠ rid := by
            intro hcontra
            subst hcontra
            exact (List.nodup_cons.mp hnodup).1 hr
          rw [mlookup_mset_ne a rid r name hne]
          exact hfresh r (List.mem_cons_of_mem rid hr)
        have htail := ih (mset a rid name) (List.Nodup.of_cons hnodup) hfreshTail
        have hadm : isResourceRejected (StartOutcome.admitted tool) = false := rfl
        simp only [startMany, hstart, List.countP_cons, hadm, List.length_cons,
          Bool.false_eq_true, if_false]
        rw [htail, hlen]
        omega

/-- Claim C5: (a) a dispatch issued while the in-flight count is already
at `maxConcurrentExecutions` fails immediately with the
`RESOURCE_ERROR` (`ResourceExhausted`) tool error, without starting any
handler (its only events are `tool:error` and the failure
`execute:end`); (b) among `maxConcurrentExecutions + 1` simultaneous
long-running dispatches of a resolvable tool starting from an idle
dispatcher, exactly one admission is rejected with `RESOURCE_ERROR`. -/
theorem claim_C5_concurrency_ceiling :
    (∀ (cfg : DispatcherConfig) (reg : RegistryState) (active : List (String × String))
       (rid name : String) (args : JSValue) (behavior : RaceOutcome) (elapsed : Nat),
       cfg.maxConcurrentExecutions ≤ active.length →
       (dispatch cfg reg active rid name args behavior elapsed).handlerInvoked = false ∧
       (dispatch cfg reg active rid name args behavior elapsed).response
         = formatErrorResponse cfg (mkResourceError cfg.maxConcurrentExecutions name) ∧
       (mkResourceError cfg.maxConcurrentExecutions name).code = .RESOURCE_ERROR ∧
       (dispatch cfg reg active rid name args behavior elapsed).events
         = [Event.toolError name (mkResourceError cfg.maxConcurrentExecutions name).message
              (some rid),
            Event.executeEnd name rid false elapsed]) ∧
    (∀ (cfg : DispatcherConfig) (reg : RegistryState) (name : String) (args : JSValue)
       (tool : ToolCommand) (ids : List String),
       ToolRegistry.get reg name = some tool →
       ids.Nodup →
       ids.length = cfg.maxConcurrentExecutions + 1 →
       (startMany cfg reg name args ids []).1.countP isResourceRejected = 1) := by
  constructor
  · intro cfg reg active rid name args behavior elapsed hcap
    refine ⟨?_, ?_, rfl, ?_⟩ <;>
      simp [dispatch, dispatchStart, hcap, dispatchCatch, normalizeError]
  · intro cfg reg name args tool ids hget hnodup hlen
    rw [startMany_resource_count cfg reg name args tool hget ids [] hnodup
      (fun r _ => rfl)]
    simp [hlen]

/-- Witness for C5: (a) with a ceiling of 2 and two in-flight requests a
third dispatch is rejected without running a handler; (b) three
simultaneous dispatches against the same ceiling yield exactly one
resource rejection. -/
theorem claim_C5_concurrency_ceiling_witness :
    ((mkDispatcherConfig none none (some 2)).maxConcurrentExecutions
        ≤ [("a", "echo"), ("b", "echo")].length ∧
     (dispatch (mkDispatcherConfig none none (some 2)) echoRegistry
         [("a", "echo"), ("b", "echo")] "r3" "echo"
         (JSValue.vObj [("msg", JSValue.vStr "hi")])
         (RaceOutcome.resolves (JSValue.vStr "hi")) 3).handlerInvoked = false ∧
     (dispatch (mkDispatcherConfig none none (some 2)) echoRegistry
         [("a", "echo"), ("b", "echo")] "r3" "echo"
         (JSValue.vObj [("msg", JSValue.vStr "hi")])
         (RaceOutcome.resolves (JSValue.vStr "hi")) 3).response
       = formatErrorResponse (mkDispatcherConfig none none (some 2))
           (mkResourceError 2 "echo")) ∧
    (ToolRegistry.get echoRegistry "echo" = some echoTool ∧
     (["r1", "r2", "r3"] : List String).Nodup ∧
     (startMany (mkDispatcherConfig none none (some 2)) echoRegistry "echo"
         (JSValue.vObj [("msg", JSValue.vStr "hi")])
         ["r1", "r2", "r3"] []).1.countP isResourceRejected = 1) := by
  have h := claim_C5_concurrency_ceiling
  refine ⟨⟨by decide, ?_, ?_⟩, rfl, by decide, ?_⟩
  · exact (h.1 (mkDispatcherConfig none none (some 2)) echoRegistry
      [("a", "echo"), ("b", "echo")] "r3" "echo"
      (JSValue.vObj [("msg", JSValue.vStr "hi")])
      (RaceOutcome.resolves (JSValue.vStr "hi")) 3 (by decide)).1
  · exact (h.1 (mkDispatcherConfig none none (some 2)) echoRegistry
      [("a", "echo"), ("b", "echo")] "r3" "echo"
      (JSValue.vObj [("msg", JSValue.vStr "hi")])
      (RaceOutcome.resolves (JSValue.vStr "hi")) 3 (by decide)).2.1
  · exact h.2 (mkDispatcherConfig none none (some 2)) echoRegistry "echo"
      (JSValue.vObj [("msg", JSValue.vStr "hi")]) echoTool ["r1", "r2", "r3"]
      rfl (by decide) rfl

/-- Counterexample to claim C6: a command that declares
`maxExecutionTime = 0` has a present declared timeout, yet the effective
timeout is the dispatcher default (30000), because the source combines
them with JS `||`, which treats `0` as absent; the resulting timeout
error reports 30000, not the declared 0. -/
theorem claim_C6_counterexample :
    getMaxExecutionTime zeroTimeoutTool = some 0 ∧
    effectiveTimeout defaultConfig zeroTimeoutTool = 30000 ∧
    effectiveTimeout defaultConfig zeroTimeoutTool ≠ 0 ∧
    (executeWithTimeout defaultConfig zeroTimeoutTool (JSValue.vObj []) "r1"
        RaceOutcome.timesOut 7).1.error
      = some (mkToolTimeoutError "zero" 30000) :=
  ⟨rfl, rfl, by decide, rfl⟩

/-- Claim C6 as amended: the effective timeout of a dispatch is the
command's declared `maxExecutionTime` when it is present and nonzero, and
the dispatcher's default timeout otherwise (absent or declared as `0`);
when the timer fires first the execution fails with the
`ToolTimeoutError` reporting exactly this effective timeout, and the
dispatch renders that error to the caller. -/
theorem claim_C6_amended (cfg : DispatcherConfig) (reg : RegistryState)
    (active : List (String × String)) (rid name : String) (args va : JSValue)
    (tool : ToolCommand) (elapsed : Nat)
    (hget : ToolRegistry.get reg name = some tool)
    (hvalid : tool.schema args = Except.ok va)
    (hcap : active.length < cfg.maxConcurrentExecutions) :
    (executeWithTimeout cfg tool args rid RaceOutcome.timesOut elapsed).1.success = false ∧
    (executeWithTimeout cfg tool args rid RaceOutcome.timesOut elapsed).1.error
      = some (mkToolTimeoutError tool.name (effectiveTimeout cfg tool)) ∧
    (∀ t, getMaxExecutionTime tool = some t → t ≠ 0 → effectiveTimeout cfg tool = t) ∧
    (getMaxExecutionTime tool = none → effectiveTimeout cfg tool = cfg.defaultTimeout) ∧
    (getMaxExecutionTime tool = some 0 → effectiveTimeout cfg tool = cfg.defaultTimeout) ∧
    (dispatch cfg reg active rid name args RaceOutcome.timesOut elapsed).response
      = formatErrorResponse cfg (mkToolTimeoutError tool.name (effectiveTimeout cfg tool)) := by
  have hcap2 : ¬ (active.length ≥ cfg.maxConcurrentExecutions) := by omega
  refine ⟨?_, ?_, ?_, ?_, ?_, ?_⟩
  · simp [executeWithTimeout, hvalid, withTimeout]
  · simp [executeWithTimeout, hvalid, withTimeout, normalizeError]
  · intro t ht hne
    simp [effectiveTimeout, jsOr, ht, hne]
  · intro ht
    simp [effectiveTimeout, jsOr, ht]
  · intro ht
    simp [effectiveTimeout, jsOr, ht]
  · simp [dispatch, dispatchStart, hcap2, hget, executeWithTimeout, hvalid, withTimeout,
      dispatchCatch, normalizeError]

/-- Witness for the amended C6 on the `echo` tool (no declared
constraint, so the default timeout applies and is reported). -/
theorem claim_C6_amended_witness :
    ToolRegistry.get echoRegistry "echo" = some echoTool ∧
    echoTool.schema (JSValue.vObj [("msg", JSValue.vStr "hi")])
      = Except.ok (JSValue.vObj [("msg", JSValue.vStr "hi")]) ∧
    ([] : List (String × String)).length < defaultConfig.maxConcurrentExecutions ∧
    ((executeWithTimeout defaultConfig echoTool (JSValue.vObj [("msg", JSValue.vStr "hi")])
        "r1" RaceOutcome.timesOut 3).1.error
      = some (mkToolTimeoutError "echo" (effectiveTimeout defaultConfig echoTool)) ∧
     effectiveTimeout defaultConfig echoTool = 30000) :=
  ⟨rfl, rfl, by decide,
   (claim_C6_amended defaultConfig echoRegistry [] "r1" "echo"
      (JSValue.vObj [("msg", JSValue.vStr "hi")])
      (JSValue.vObj [("msg", JSValue.vStr "hi")]) echoTool 3 rfl rfl (by decide)).2.1,
   rfl⟩

/-! ### Event-bus claims -/

/-- One `emit` preserves the shape invariant of the single
`once`-subscription scenario: either the wrapper is still subscribed and
the handler has never run, or the wrapper is gone and the handler has run
at most once.  Needs the handler to never throw. -/
theorem emit_preserves_once_invariant (env : HandlerEnv) (e : String) (h : Nat)
    (hno : ∀ k, env.throws h k = false) (x : String) (st : EventBusState)
    (hP : (st.subs = [(e, ⟨0, h, true⟩)] ∧ st.calls.count h = 0) ∨
          (st.subs = [] ∧ st.calls.count h ≤ 1)) :
    ((EventBus.emit env st x).subs = [(e, ⟨0, h, true⟩)] ∧
      (EventBus.emit env st x).calls.count h = 0) ∨
    ((EventBus.emit env st x).subs = [] ∧
      (EventBus.emit env st x).calls.count h ≤ 1) := by
  rcases hP with ⟨hs, hc⟩ | ⟨hs, hc⟩
  · by_cases hx : e = x
    · subst hx
      right
      simp [EventBus.emit, hs, EventBus.emitLoop, EventBus.runListener, hc, hno,
        EventBus.unsubscribe, List.count_append]
    · left
      simp [EventBus.emit, hs, EventBus.emitLoop, hx, hc]
  · right
    simp [EventBus.emit, hs, EventBus.emitLoop, hc]

/-- Any sequence of emissions preserves the invariant of the single
`once`-subscription scenario. -/
theorem emitMany_preserves_once_invariant (env : HandlerEnv) (e : String) (h : Nat)
    (hno : ∀ k, env.throws h k = false) :
    ∀ (names : List String) (st : EventBusState),
      ((st.subs = [(e, ⟨0, h, true⟩)] ∧ st.calls.count h = 0) ∨
       (st.subs = [] ∧ st.calls.count h ≤ 1)) →
      ((EventBus.emitMany env names st).subs = [(e, ⟨0, h, true⟩)] ∧
        (EventBus.emitMany env names st).calls.count h = 0) ∨
      ((EventBus.emitMany env names st).subs = [] ∧
        (EventBus.emitMany env names st).calls.count h ≤ 1) := by
  intro names
  induction names with
  | nil => intro st hP; simpa [EventBus.emitMany] using hP
  | cons x xs ih =>
      intro st hP
      simp only [EventBus.emitMany]
      exact ih (EventBus.emit env st x)
        (emit_preserves_once_invariant env e h hno x st hP)

/-- Counterexample to claim C9: a `once` handler whose first invocation
throws is *not* unsubscribed (the throw skips the wrapper's
`unsubscribe()` call and is caught by `emit`), so a second publish runs
it a second time: after two publishes it has run twice, and after the
first it is still subscribed. -/
theorem claim_C9_counterexample :
    (EventBus.emitMany throwOnFirstEnv ["e", "e"]
        (EventBus.once emptyBus "e" 0).2).calls.count 0 = 2 ∧
    countTargets (EventBus.emit throwOnFirstEnv
        (EventBus.once emptyBus "e" 0).2 "e").subs 0 = 1 :=
  ⟨rfl, rfl⟩

/-- Claim C9 as amended: a handler registered via `once` self-unsubscribes
immediately after its first invocation that returns normally; in
particular, when the handler never throws, the first publish of its event
runs it exactly once and removes its subscription, and across any
sequence of subsequent publishes it runs at most once in total.  (When an
invocation throws, the wrapper stays subscribed and the handler can run
again.) -/
theorem claim_C9_once_single_run (env : HandlerEnv) (e : String) (h : Nat)
    (names : List String) (hno : ∀ k, env.throws h k = false) :
    (EventBus.emit env (EventBus.once emptyBus e h).2 e).calls.count h = 1 ∧
    countTargets (EventBus.emit env (EventBus.once emptyBus e h).2 e).subs h = 0 ∧
    (EventBus.emitMany env names (EventBus.once emptyBus e h).2).calls.count h ≤ 1 := by
  have hstart : ((EventBus.once emptyBus e h).2.subs = [(e, ⟨0, h, true⟩)] ∧
      (EventBus.once emptyBus e h).2.calls.count h = 0) ∨
      ((EventBus.once emptyBus e h).2.subs = [] ∧
        (EventBus.once emptyBus e h).2.calls.count h ≤ 1) := by
    left
    exact ⟨rfl, rfl⟩
  refine ⟨?_, ?_, ?_⟩
  · simp [EventBus.once, emptyBus, EventBus.emit, EventBus.emitLoop, EventBus.runListener,
      hno, EventBus.unsubscribe, List.count_append]
  · simp [EventBus.once, emptyBus, EventBus.emit, EventBus.emitLoop, EventBus.runListener,
      hno, EventBus.unsubscribe, countTargets]
  · rcases emitMany_preserves_once_invariant env e h hno names
        (EventBus.once emptyBus e h).2 hstart with ⟨_, hc⟩ | ⟨_, hc⟩
    · omega
    · exact hc

/-- Witness for the amended C9: handler `3` subscribed once for `"e"` on
a calm bus runs exactly once across the publish sequence
`["e", "x", "e"]`. -/
theorem claim_C9_once_single_run_witness :
    (∀ k, calmEnv.throws 3 k = false) ∧
    ((EventBus.emit calmEnv (EventBus.once emptyBus "e" 3).2 "e").calls.count 3 = 1 ∧
     countTargets (EventBus.emit calmEnv (EventBus.once emptyBus "e" 3).2 "e").subs 3 = 0 ∧
     (EventBus.emitMany calmEnv ["e", "x", "e"]
         (EventBus.once emptyBus "e" 3).2).calls.count 3 ≤ 1) :=
  ⟨fun _ => rfl, claim_C9_once_single_run calmEnv "e" 3 ["e", "x", "e"] (fun _ => rfl)⟩

end MCP
